import Mathlib

/-!
Verification of the interface-address monitor and reconciliation engine of
netlink-ddns, a daemon that keeps a DNS A record synchronized with the IPv4
address of a named network interface.

The definitions below are a shallow embedding of the Rust source:
  * `src/netlink.rs` — `get_if_addr`, `is_our_if`, `get_ip`, `filter_msg`,
    the `ChangeType` and `IpAddrChange` types;
  * `src/main.rs`   — the bootstrapping retry loop, the initial DNS sync,
    and the streaming event loop of `main`.
Kernel/netlink interaction and the asynchronous HTTP provider calls are
modelled by explicit data (a kernel state record, lists of notifications,
and oracles giving each provider call's result), while the decision logic
is translated branch for branch from the source.
-/

/-- An IPv4 address, as four octets (Rust `std::net::Ipv4Addr`). -/
structure Ipv4Addr where
  o1 : Nat
  o2 : Nat
  o3 : Nat
  o4 : Nat
deriving DecidableEq, Repr

/-- An IP address, IPv4 or IPv6 (Rust `std::net::IpAddr`).  IPv6 addresses are
modelled by their list of segments; the code only ever pattern-matches on the
V4/V6 distinction. -/
inductive IpAddr where
  | v4 : Ipv4Addr → IpAddr
  | v6 : List Nat → IpAddr
deriving DecidableEq, Repr

/-- Netlink address-message attributes (rtnetlink `AddressAttribute`).
`other` stands for every attribute variant the code never inspects. -/
inductive AddressAttribute where
  | address : IpAddr → AddressAttribute
  | label : String → AddressAttribute
  | localAddr : IpAddr → AddressAttribute
  | other : AddressAttribute
deriving DecidableEq, Repr

/-- The address family of a netlink address message header
(rtnetlink `AddressFamily`). -/
inductive AddressFamily where
  | inet
  | inet6
  | unspec
deriving DecidableEq, Repr

/-- Header of a netlink address message (rtnetlink `AddressMessageHeader`):
the address family and the interface index. -/
structure AddressHeader where
  family : AddressFamily
  index : Nat
deriving DecidableEq, Repr

/-- A netlink address message (rtnetlink `AddressMessage`). -/
structure AddressMessage where
  header : AddressHeader
  attributes : List AddressAttribute
deriving DecidableEq, Repr

/-- A route-netlink notification (rtnetlink `RouteNetlinkMessage`); the code
matches only `NewAddress` and `DelAddress`, every other variant falls to the
wildcard arm, modelled by `other`. -/
inductive RouteNetlinkMessage where
  | newAddress : AddressMessage → RouteNetlinkMessage
  | delAddress : AddressMessage → RouteNetlinkMessage
  | other : RouteNetlinkMessage
deriving DecidableEq, Repr

/-- The type of IP address change (`netlink.rs` `ChangeType`). -/
inductive ChangeType where
  | add
  | del
deriving DecidableEq, Repr

/-- A change in IP address on a network interface (`netlink.rs` `IpAddrChange`). -/
structure IpAddrChange where
  ctype : ChangeType
  iface : String
  addr : Ipv4Addr
deriving DecidableEq, Repr

/-- The first `Label` attribute of an address message, if any: the
`find_map` inside `is_our_if` (`netlink.rs` lines 210-216). -/
def first_label (amsg : AddressMessage) : Option String :=
  amsg.attributes.findSome? fun attr =>
    match attr with
    | AddressAttribute.label l => some l
    | _ => none

/-- `is_our_if` (`netlink.rs` lines 209-218): the message belongs to our
interface iff its first `Label` attribute equals the configured name. -/
def is_our_if (ifname : String) (amsg : AddressMessage) : Bool :=
  match first_label amsg with
  | some nif => nif == ifname
  | none => false

/-- The list of IPv4 `Address` attribute values of a message: the `v4s`
vector inside `get_ip` (`netlink.rs` lines 221-228). -/
def v4_addrs (amsg : AddressMessage) : List Ipv4Addr :=
  amsg.attributes.filterMap fun attr =>
    match attr with
    | AddressAttribute.address (IpAddr.v4 ip) => some ip
    | _ => none

/-- `get_ip` (`netlink.rs` lines 220-238): the unique IPv4 `Address`
attribute, `none` when there are zero or more than one. -/
def get_ip (amsg : AddressMessage) : Option Ipv4Addr :=
  match v4_addrs amsg with
  | [] => none
  | [ip] => some ip
  | _ => none

/-- `filter_msg` (`netlink.rs` lines 240-267): decode one notification into
at most one `IpAddrChange` event. -/
def filter_msg (ifname : String) (msg : RouteNetlinkMessage) : Option IpAddrChange :=
  match msg with
  | RouteNetlinkMessage.newAddress amsg =>
    if is_our_if ifname amsg then
      (get_ip amsg).map fun addr =>
        { ctype := ChangeType.add, iface := ifname, addr := addr }
    else
      none
  | RouteNetlinkMessage.delAddress amsg =>
    if is_our_if ifname amsg then
      (get_ip amsg).map fun addr =>
        { ctype := ChangeType.del, iface := ifname, addr := addr }
    else
      none
  | RouteNetlinkMessage.other => none

/-- A kernel link entry, as returned by the rtnetlink link query: its name
and its header's interface index. -/
structure Link where
  name : String
  index : Nat
deriving DecidableEq, Repr

/-- The kernel networking state visible to `get_if_addr`: the link table and
the address-record table (each record being an `AddressMessage`, whose header
carries the owning link index and the family). -/
structure KernelState where
  links : List Link
  addrs : List AddressMessage
deriving Repr

/-- Errors of `get_if_addr` (`netlink.rs` `bail!`/`context` sites). -/
inductive NlError where
  | interfaceNotFound
  | ambiguousAddress
  | internalNonV4
deriving DecidableEq, Repr

/-- The address-collection pipeline of `get_if_addr` (`netlink.rs` lines
99-130): take the address records of the given link index, keep the
IPv4-family ones, flatten their attribute lists and keep the `Address`
attribute values. -/
def collect_addrs (st : KernelState) (index : Nat) : List IpAddr :=
  ((st.addrs.filter fun a => a.header.index == index).filter
      fun a => a.header.family == AddressFamily.inet).flatMap
    fun a =>
      a.attributes.filterMap fun attr =>
        match attr with
        | AddressAttribute.address addr => some addr
        | _ => none

/-- `get_if_addr` (`netlink.rs` lines 83-142): resolve the interface name to
its link, collect its IPv4-family address values, and return the unique one;
zero addresses is `none` (not an error), more than one is an error. -/
def get_if_addr (st : KernelState) (ifname : String) :
    Except NlError (Option Ipv4Addr) :=
  match st.links.find? (fun l => l.name == ifname) with
  | none => Except.error NlError.interfaceNotFound
  | some link =>
    match collect_addrs st link.index with
    | [] => Except.ok none
    | [IpAddr.v4 ip] => Except.ok (some ip)
    | [IpAddr.v6 _] => Except.error NlError.internalNonV4
    | _ :: _ :: _ => Except.error NlError.ambiguousAddress

/-- An error from the DNS provider client (the `anyhow` errors that
`get_a_record`, `create_a_record` and `update_a_record` can return). -/
inductive ProviderError where
  | providerFailure
deriving DecidableEq, Repr

/-- A call made to the DNS provider, recorded for counting. -/
inductive DnsCall where
  | getAddress : String → DnsCall
  | createAddress : String → Ipv4Addr → DnsCall
  | updateAddress : String → Ipv4Addr → DnsCall
deriving DecidableEq, Repr

/-- Whether a recorded provider call is a mutation (create or update, not a
read). -/
def is_mutation (c : DnsCall) : Bool :=
  match c with
  | DnsCall.getAddress _ => false
  | DnsCall.createAddress _ _ => true
  | DnsCall.updateAddress _ _ => true

/-- The mutation calls among a call log. -/
def mutations (calls : List DnsCall) : List DnsCall :=
  calls.filter is_mutation

/-- The fixed retry delay of the bootstrapping loop, in seconds
(`main.rs` line 83, `Duration::from_secs(10)`). -/
def retryDelaySecs : Nat := 10

/-- The bootstrapping loop of `main` (`main.rs` lines 76-84), run against a
list of successive `get_if_addr` results.  The loop breaks at the first
`Ok(Some(ip))`; after every other result it logs and waits the fixed delay
before the next attempt.  The result is the obtained address together with
the list of delay waits (each wait's length in seconds); `none` means the
supplied attempt list was exhausted without a success (the real loop never
terminates in that case). -/
def bootstrap : List (Except NlError (Option Ipv4Addr)) → Option (Ipv4Addr × List Nat)
  | [] => none
  | attempt :: rest =>
    match attempt with
    | Except.ok (some ip) => some (ip, [])
    | Except.ok none =>
      (bootstrap rest).map fun r => (r.1, retryDelaySecs :: r.2)
    | Except.error _ =>
      (bootstrap rest).map fun r => (r.1, retryDelaySecs :: r.2)

/-- Whether a bootstrap attempt result makes the loop retry: anything that is
not `Ok(Some(ip))` (`main.rs` line 78). -/
def is_retry_result (r : Except NlError (Option Ipv4Addr)) : Bool :=
  match r with
  | Except.ok (some _) => false
  | Except.ok none => true
  | Except.error _ => true

/-- The initial DNS synchronisation of `main` (`main.rs` lines 86-99).
`getRes`, `createRes` and `updateRes` are the provider's responses to the
calls the code may make.  Returns the call log and, on success, the value of
the `upstream` variable as it enters the streaming loop; `Except.error`
models the `?` operator terminating the process. -/
def initial_sync (host : String)
    (getRes : Except ProviderError (Option Ipv4Addr))
    (createRes : Except ProviderError Unit)
    (updateRes : Except ProviderError Unit)
    (localIp : Ipv4Addr) :
    List DnsCall × Except ProviderError (Option Ipv4Addr) :=
  match getRes with
  | Except.error e => ([DnsCall.getAddress host], Except.error e)
  | Except.ok upstream =>
    if upstream.isNone then
      match createRes with
      | Except.ok _ =>
        ([DnsCall.getAddress host, DnsCall.createAddress host localIp],
          Except.ok upstream)
      | Except.error e =>
        ([DnsCall.getAddress host, DnsCall.createAddress host localIp],
          Except.error e)
    else if some localIp != upstream then
      match updateRes with
      | Except.ok _ =>
        ([DnsCall.getAddress host, DnsCall.updateAddress host localIp],
          Except.ok upstream)
      | Except.error e =>
        ([DnsCall.getAddress host, DnsCall.updateAddress host localIp],
          Except.error e)
    else
      ([DnsCall.getAddress host], Except.ok upstream)

/-- One iteration of the streaming loop of `main` (`main.rs` lines 103-123),
processing a single `IpAddrChange` event.  `upd` is the provider's response
to `update_a_record` for a given address.  Returns the calls made and, on
success, the new value of `upstream`; `Except.error` models the `?` operator
terminating the process. -/
def handle_event (host : String) (upd : Ipv4Addr → Except ProviderError Unit)
    (upstream : Option Ipv4Addr) (ev : IpAddrChange) :
    List DnsCall × Except ProviderError (Option Ipv4Addr) :=
  match ev.ctype with
  | ChangeType.add =>
    if upstream.any (fun uip => uip == ev.addr) then
      ([], Except.ok upstream)
    else
      match upd ev.addr with
      | Except.ok _ =>
        ([DnsCall.updateAddress host ev.addr], Except.ok (some ev.addr))
      | Except.error e =>
        ([DnsCall.updateAddress host ev.addr], Except.error e)
  | ChangeType.del => ([], Except.ok upstream)

/-- The streaming loop of `main` (`main.rs` lines 103-124) over a finite
event list: iterate `handle_event`, accumulating the call log, stopping with
the error when a provider call fails (process termination via `?`). -/
def run_stream (host : String) (upd : Ipv4Addr → Except ProviderError Unit) :
    Option Ipv4Addr → List IpAddrChange →
    List DnsCall × Except ProviderError (Option Ipv4Addr)
  | upstream, [] => ([], Except.ok upstream)
  | upstream, ev :: rest =>
    match handle_event host upd upstream ev with
    | (calls, Except.ok upstream2) =>
      let r := run_stream host upd upstream2 rest
      (calls ++ r.1, r.2)
    | (calls, Except.error e) => (calls, Except.error e)

/-- C9: during Bootstrapping the Reconciler retries `get_if_addr` until it
returns a concrete address, waiting the fixed 10-second delay after every
error or `none` result, with no retry limit and no backoff growth: if the
first N attempts all fail (error or `none`) and attempt N+1 returns an
address, the loop produces exactly one address (one transition into
InitialSync, independent of any later attempts) after exactly N waits, each
of the fixed 10 seconds. -/
theorem bootstrap_retries_then_succeeds
    (pre rest : List (Except NlError (Option Ipv4Addr))) (ip : Ipv4Addr)
    (hpre : ∀ a ∈ pre, is_retry_result a = true) :
    bootstrap (pre ++ Except.ok (some ip) :: rest)
      = some (ip, List.replicate pre.length retryDelaySecs) := by
  induction pre with
  | nil => rfl
  | cons a t ih =>
    have ha : is_retry_result a = true := hpre a (List.mem_cons_self a t)
    have ht : ∀ b ∈ t, is_retry_result b = true :=
      fun b hb => hpre b (List.mem_cons_of_mem a hb)
    cases a with
    | ok o =>
      cases o with
      | none => simp [bootstrap, ih ht, List.replicate_succ]
      | some ip2 => simp [is_retry_result] at ha
    | error e => simp [bootstrap, ih ht, List.replicate_succ]

/-- C9 witness: two failing attempts (a `none` result, then an
`InterfaceNotFound` error) followed by a success yield the address after
exactly two 10-second waits. -/
theorem bootstrap_retries_then_succeeds_witness :
    bootstrap [Except.ok none, Except.error NlError.interfaceNotFound,
        Except.ok (some ⟨10, 0, 0, 5⟩)]
      = some (⟨10, 0, 0, 5⟩, List.replicate 2 retryDelaySecs) :=
  bootstrap_retries_then_succeeds
    [Except.ok none, Except.error NlError.interfaceNotFound] []
    ⟨10, 0, 0, 5⟩ (by decide)

/-- C4 counterexample: the claim says an `AmbiguousAddress` failure during
Bootstrapping is fatal and aborts startup.  In the code it is not: after an
`AmbiguousAddress` error the loop waits the fixed delay and retries, and the
next successful attempt transitions into InitialSync exactly as for any
transient error. -/
theorem bootstrap_ambiguous_retried_counterexample :
    bootstrap [Except.error NlError.ambiguousAddress,
        Except.ok (some ⟨10, 0, 0, 5⟩)]
      = some (⟨10, 0, 0, 5⟩, [retryDelaySecs]) := by
  decide

/-- C4 amended: an `AmbiguousAddress` failure during Bootstrapping is not
fatal; the loop treats it exactly like any other failed attempt, waiting the
fixed 10-second delay and retrying — the continuation after it is the same
as after an `InterfaceNotFound` error or a `none` result. -/
theorem bootstrap_ambiguous_is_retried
    (rest : List (Except NlError (Option Ipv4Addr))) :
    bootstrap (Except.error NlError.ambiguousAddress :: rest)
      = (bootstrap rest).map (fun r => (r.1, retryDelaySecs :: r.2)) ∧
    bootstrap (Except.error NlError.ambiguousAddress :: rest)
      = bootstrap (Except.error NlError.interfaceNotFound :: rest) ∧
    bootstrap (Except.error NlError.ambiguousAddress :: rest)
      = bootstrap (Except.ok none :: rest) :=
  ⟨rfl, rfl, rfl⟩

/-- C3: InitialSync makes exactly one provider mutation call decided by
comparing the published record to the local address: no record → exactly one
`create_address(host, local)`; a differing record → exactly one
`update_address(host, local)`; a matching record → zero mutation calls.
The call log is the same whether the mutation call succeeds or fails. -/
theorem initial_sync_mutation_calls (host : String) (localIp : Ipv4Addr)
    (createRes updateRes : Except ProviderError Unit) :
    mutations (initial_sync host (Except.ok none)
        createRes updateRes localIp).1
      = [DnsCall.createAddress host localIp] ∧
    (∀ up : Ipv4Addr, up ≠ localIp →
      mutations (initial_sync host (Except.ok (some up))
          createRes updateRes localIp).1
        = [DnsCall.updateAddress host localIp]) ∧
    mutations (initial_sync host (Except.ok (some localIp))
        createRes updateRes localIp).1 = [] := by
  refine ⟨?_, ?_, ?_⟩
  · cases createRes <;> rfl
  · intro up hup
    have h1 : (some localIp != some up) = true := by
      simp [bne_iff_ne]
      exact fun h => hup h.symm
    cases updateRes <;>
      simp [initial_sync, h1, mutations, is_mutation]
  · simp [initial_sync, mutations, is_mutation]

/-- C3 witness: at host `"test"`, local 10.0.0.5 and a published record
10.0.0.4, InitialSync makes exactly one `update_address("test", 10.0.0.5)`
mutation call. -/
theorem initial_sync_mutation_calls_witness :
    mutations (initial_sync "test" (Except.ok (some ⟨10, 0, 0, 4⟩))
        (Except.ok ()) (Except.ok ()) ⟨10, 0, 0, 5⟩).1
      = [DnsCall.updateAddress "test" ⟨10, 0, 0, 5⟩] :=
  (initial_sync_mutation_calls "test" ⟨10, 0, 0, 5⟩
      (Except.ok ()) (Except.ok ())).2.1 ⟨10, 0, 0, 4⟩ (by decide)

/-- C1 counterexample: the claim says that after InitialSync the cached
`upstream` value equals the local address even when an `update_address` call
was made.  In the code `upstream` is never reassigned during InitialSync:
with local 10.0.0.5 and a published record 10.0.0.4, the sync makes the
`update_address("test", 10.0.0.5)` call yet enters Streaming with the cache
still holding the fetched 10.0.0.4, not the local 10.0.0.5. -/
theorem initial_sync_cache_counterexample :
    mutations (initial_sync "test" (Except.ok (some ⟨10, 0, 0, 4⟩))
        (Except.ok ()) (Except.ok ()) ⟨10, 0, 0, 5⟩).1
      = [DnsCall.updateAddress "test" ⟨10, 0, 0, 5⟩] ∧
    (initial_sync "test" (Except.ok (some ⟨10, 0, 0, 4⟩))
        (Except.ok ()) (Except.ok ()) ⟨10, 0, 0, 5⟩).2
      = Except.ok (some ⟨10, 0, 0, 4⟩) ∧
    (initial_sync "test" (Except.ok (some ⟨10, 0, 0, 4⟩))
        (Except.ok ()) (Except.ok ()) ⟨10, 0, 0, 5⟩).2
      ≠ Except.ok (some ⟨10, 0, 0, 5⟩) := by
  refine ⟨by decide, rfl, ?_⟩
  intro h
  simp [initial_sync] at h

/-- C1 amended: at the end of InitialSync (with successful provider calls)
the cached `upstream` value equals the value returned by `get_address`, not
the local address: it equals the local address exactly when the fetched
record already matched it, and after a `create_address` or `update_address`
call it remains the fetched value (`none`, respectively the stale
address). -/
theorem initial_sync_cache_keeps_fetched (host : String)
    (up : Option Ipv4Addr) (localIp : Ipv4Addr) :
    (initial_sync host (Except.ok up)
        (Except.ok ()) (Except.ok ()) localIp).2 = Except.ok up ∧
    ((initial_sync host (Except.ok up)
        (Except.ok ()) (Except.ok ()) localIp).2 = Except.ok (some localIp)
      ↔ up = some localIp) := by
  cases up with
  | none => simp [initial_sync]
  | some u =>
    by_cases h : localIp = u
    · subst h
      simp [initial_sync]
    · have h1 : (some localIp != some u) = true := by
        simp [bne_iff_ne]
        exact h
      simp [initial_sync, h1]

/-- C2: in Streaming, an `Added` event carrying address X is skipped with no
provider call when X equals the cached value; otherwise exactly one
`update_address(host, X)` call is made and, on its success, the cache is set
to X.  Consequently, from a cache differing from X, two consecutive `Added`
events carrying X trigger exactly one `update_address` call. -/
theorem streaming_added_idempotent (host iface iface2 : String)
    (upd : Ipv4Addr → Except ProviderError Unit)
    (upstream : Option Ipv4Addr) (x : Ipv4Addr) :
    (upstream = some x →
      handle_event host upd upstream ⟨ChangeType.add, iface, x⟩
        = ([], Except.ok upstream)) ∧
    (upstream ≠ some x →
      (handle_event host upd upstream ⟨ChangeType.add, iface, x⟩).1
          = [DnsCall.updateAddress host x] ∧
      (upd x = Except.ok () →
        (handle_event host upd upstream ⟨ChangeType.add, iface, x⟩).2
          = Except.ok (some x))) ∧
    (upstream ≠ some x → upd x = Except.ok () →
      (run_stream host upd upstream
          [⟨ChangeType.add, iface, x⟩, ⟨ChangeType.add, iface2, x⟩]).1
        = [DnsCall.updateAddress host x]) := by
  refine ⟨?_, ?_, ?_⟩
  · intro h
    subst h
    simp [handle_event, Option.any]
  · intro h
    have hany : (upstream.any fun uip => uip == x) = false := by
      cases upstream with
      | none => rfl
      | some u =>
        simp [Option.any]
        exact fun hux => h (by rw [hux])
    constructor
    · cases hud : upd x <;> simp [handle_event, hany, hud]
    · intro hok
      simp [handle_event, hany, hok]
  · intro h hok
    have hany : (upstream.any fun uip => uip == x) = false := by
      cases upstream with
      | none => rfl
      | some u =>
        simp [Option.any]
        exact fun hux => h (by rw [hux])
    simp [run_stream, handle_event, hany, hok]

/-- C2 witness: with cache 1.1.1.1 and two consecutive `Added` events
carrying 2.2.2.2 (an always-succeeding provider), exactly one
`update_address("test", 2.2.2.2)` call is made. -/
theorem streaming_added_idempotent_witness :
    (run_stream "test" (fun _ => Except.ok ()) (some ⟨1, 1, 1, 1⟩)
        [⟨ChangeType.add, "eth0", ⟨2, 2, 2, 2⟩⟩,
         ⟨ChangeType.add, "eth0", ⟨2, 2, 2, 2⟩⟩]).1
      = [DnsCall.updateAddress "test" ⟨2, 2, 2, 2⟩] :=
  (streaming_added_idempotent "test" "eth0" "eth0" (fun _ => Except.ok ())
      (some ⟨1, 1, 1, 1⟩) ⟨2, 2, 2, 2⟩).2.2 (by decide) rfl

/-- C8: a `Removed` event never causes a provider call and leaves the cache
unchanged, whatever the cache holds; consequently, with the cache holding a
just-published address X, the sequence `Removed{X}` then `Added{X}` makes no
provider call at all — the `Added` is treated as a no-op duplicate. -/
theorem removed_event_no_call (host : String)
    (upd : Ipv4Addr → Except ProviderError Unit)
    (upstream : Option Ipv4Addr) (ev : IpAddrChange)
    (hdel : ev.ctype = ChangeType.del) :
    handle_event host upd upstream ev = ([], Except.ok upstream) ∧
    (∀ (iface iface2 : String) (x : Ipv4Addr),
      run_stream host upd (some x)
          [⟨ChangeType.del, iface, x⟩, ⟨ChangeType.add, iface2, x⟩]
        = ([], Except.ok (some x))) := by
  constructor
  · simp [handle_event, hdel]
  · intro iface iface2 x
    simp [run_stream, handle_event, Option.any]

/-- C8 witness: with cache 2.2.2.2, the events `Removed{2.2.2.2}` then
`Added{2.2.2.2}` make no provider call and leave the cache unchanged. -/
theorem removed_event_no_call_witness :
    run_stream "test" (fun _ => Except.ok ()) (some ⟨2, 2, 2, 2⟩)
        [⟨ChangeType.del, "eth0", ⟨2, 2, 2, 2⟩⟩,
         ⟨ChangeType.add, "eth0", ⟨2, 2, 2, 2⟩⟩]
      = ([], Except.ok (some ⟨2, 2, 2, 2⟩)) :=
  (removed_event_no_call "test" (fun _ => Except.ok ())
      (some ⟨2, 2, 2, 2⟩) ⟨ChangeType.del, "eth0", ⟨2, 2, 2, 2⟩⟩ rfl).2
    "eth0" "eth0" ⟨2, 2, 2, 2⟩

/-- C5: every event the decoder emits is for the configured interface (its
`iface` field is the configured name and the underlying notification's label
matched it) and carries the unique IPv4 address attribute of the
notification (so the notification had exactly one, and the event's address
is IPv4 by construction); conversely a notification with a mismatched label,
zero IPv4 address attributes or more than one IPv4 address attribute yields
no event, and neither does any non-address notification. -/
theorem filter_msg_only_wellformed (ifname : String) (amsg : AddressMessage) :
    (∀ ev : IpAddrChange,
      filter_msg ifname (RouteNetlinkMessage.newAddress amsg) = some ev ∨
        filter_msg ifname (RouteNetlinkMessage.delAddress amsg) = some ev →
      ev.iface = ifname ∧ is_our_if ifname amsg = true ∧
        v4_addrs amsg = [ev.addr]) ∧
    (is_our_if ifname amsg = false ∨ v4_addrs amsg = [] ∨
        1 < (v4_addrs amsg).length →
      filter_msg ifname (RouteNetlinkMessage.newAddress amsg) = none ∧
      filter_msg ifname (RouteNetlinkMessage.delAddress amsg) = none) ∧
    filter_msg ifname RouteNetlinkMessage.other = none := by
  refine ⟨?_, ?_, rfl⟩
  · intro ev hev
    by_cases hif : is_our_if ifname amsg
    · rcases hv : v4_addrs amsg with _ | ⟨a, _ | ⟨b, t⟩⟩ <;>
        rcases hev with hev | hev <;>
        simp [filter_msg, hif, get_ip, hv] at hev
      all_goals subst hev
      all_goals simp [hif, hv]
    · rcases hev with hev | hev <;>
        simp [filter_msg, hif] at hev
  · intro hbad
    rcases hbad with hif | hv | hlen
    · simp [filter_msg, hif]
    · by_cases hif : is_our_if ifname amsg <;>
        simp [filter_msg, hif, get_ip, hv]
    · rcases hv : v4_addrs amsg with _ | ⟨a, _ | ⟨b, t⟩⟩ <;>
        rw [hv] at hlen <;>
        simp at hlen
      by_cases hif : is_our_if ifname amsg <;>
        simp [filter_msg, hif, get_ip, hv]

/-- C5 witness: a new-address notification carrying one IPv4 address but
labeled with a different interface yields no event. -/
theorem filter_msg_only_wellformed_witness :
    filter_msg "eth0" (RouteNetlinkMessage.newAddress
        ⟨⟨AddressFamily.inet, 1⟩,
          [AddressAttribute.label "wlan0",
           AddressAttribute.address (IpAddr.v4 ⟨9, 9, 9, 9⟩)]⟩) = none ∧
    filter_msg "eth0" (RouteNetlinkMessage.delAddress
        ⟨⟨AddressFamily.inet, 1⟩,
          [AddressAttribute.label "wlan0",
           AddressAttribute.address (IpAddr.v4 ⟨9, 9, 9, 9⟩)]⟩) = none :=
  (filter_msg_only_wellformed "eth0"
      ⟨⟨AddressFamily.inet, 1⟩,
        [AddressAttribute.label "wlan0",
         AddressAttribute.address (IpAddr.v4 ⟨9, 9, 9, 9⟩)]⟩).2.1
    (Or.inl (by decide))

/-- C6: for a notification whose label matches the configured interface and
which carries exactly one IPv4 address attribute, the decoder emits exactly
one event: `Added` with that address for a new-address notification,
`Removed` with that address for a del-address notification. -/
theorem filter_msg_matching_emits (ifname : String) (amsg : AddressMessage)
    (ip : Ipv4Addr) (hif : is_our_if ifname amsg = true)
    (hv4 : v4_addrs amsg = [ip]) :
    filter_msg ifname (RouteNetlinkMessage.newAddress amsg)
      = some ⟨ChangeType.add, ifname, ip⟩ ∧
    filter_msg ifname (RouteNetlinkMessage.delAddress amsg)
      = some ⟨ChangeType.del, ifname, ip⟩ := by
  constructor <;> simp [filter_msg, hif, get_ip, hv4]

/-- C6 witness: a new-address notification labeled `"eth0"` with the single
IPv4 address 9.9.9.9 yields exactly the `Added{eth0, 9.9.9.9}` event, and
the corresponding del-address notification yields `Removed{eth0, 9.9.9.9}`. -/
theorem filter_msg_matching_emits_witness :
    filter_msg "eth0" (RouteNetlinkMessage.newAddress
        ⟨⟨AddressFamily.inet, 1⟩,
          [AddressAttribute.label "eth0",
           AddressAttribute.address (IpAddr.v4 ⟨9, 9, 9, 9⟩)]⟩)
      = some ⟨ChangeType.add, "eth0", ⟨9, 9, 9, 9⟩⟩ ∧
    filter_msg "eth0" (RouteNetlinkMessage.delAddress
        ⟨⟨AddressFamily.inet, 1⟩,
          [AddressAttribute.label "eth0",
           AddressAttribute.address (IpAddr.v4 ⟨9, 9, 9, 9⟩)]⟩)
      = some ⟨ChangeType.del, "eth0", ⟨9, 9, 9, 9⟩⟩ :=
  filter_msg_matching_emits "eth0"
    ⟨⟨AddressFamily.inet, 1⟩,
      [AddressAttribute.label "eth0",
       AddressAttribute.address (IpAddr.v4 ⟨9, 9, 9, 9⟩)]⟩
    ⟨9, 9, 9, 9⟩ (by decide) (by decide)

/-- C10: a notification without any `Label` attribute yields no event, even
when it carries exactly one IPv4 address; interface matching is exactly
string equality of the first `Label` attribute against the configured name;
and the decoder's output is invariant under the notification header's
interface index, so matching is never done by index. -/
theorem filter_msg_label_only (ifname : String) (amsg : AddressMessage) :
    (first_label amsg = none →
      filter_msg ifname (RouteNetlinkMessage.newAddress amsg) = none ∧
      filter_msg ifname (RouteNetlinkMessage.delAddress amsg) = none) ∧
    (is_our_if ifname amsg = true ↔ first_label amsg = some ifname) ∧
    (∀ idx : Nat,
      filter_msg ifname (RouteNetlinkMessage.newAddress
          { amsg with header := { amsg.header with index := idx } })
        = filter_msg ifname (RouteNetlinkMessage.newAddress amsg) ∧
      filter_msg ifname (RouteNetlinkMessage.delAddress
          { amsg with header := { amsg.header with index := idx } })
        = filter_msg ifname (RouteNetlinkMessage.delAddress amsg)) := by
  refine ⟨?_, ?_, ?_⟩
  · intro h
    constructor <;> simp [filter_msg, is_our_if, h]
  · cases h : first_label amsg with
    | none => simp [is_our_if, h]
    | some l => simp [is_our_if, h]
  · intro idx
    exact ⟨rfl, rfl⟩

/-- C10 witness: a new-address notification with no `Label` attribute but
exactly one IPv4 address yields no event. -/
theorem filter_msg_label_only_witness :
    filter_msg "eth0" (RouteNetlinkMessage.newAddress
        ⟨⟨AddressFamily.inet, 1⟩,
          [AddressAttribute.address (IpAddr.v4 ⟨9, 9, 9, 9⟩)]⟩) = none ∧
    filter_msg "eth0" (RouteNetlinkMessage.delAddress
        ⟨⟨AddressFamily.inet, 1⟩,
          [AddressAttribute.address (IpAddr.v4 ⟨9, 9, 9, 9⟩)]⟩) = none :=
  (filter_msg_label_only "eth0"
      ⟨⟨AddressFamily.inet, 1⟩,
        [AddressAttribute.address (IpAddr.v4 ⟨9, 9, 9, 9⟩)]⟩).1 rfl

/-- C7: `get_if_addr` returns `none` (not an error) when the interface
exists but zero addresses are collected, returns the address when exactly
one IPv4 address is collected, fails with `AmbiguousAddress` when more than
one address is collected, and fails with `InterfaceNotFound` when no link
has the requested name. -/
theorem get_if_addr_cases (st : KernelState) (ifname : String) :
    (st.links.find? (fun l => l.name == ifname) = none →
      get_if_addr st ifname = Except.error NlError.interfaceNotFound) ∧
    (∀ link : Link, st.links.find? (fun l => l.name == ifname) = some link →
      (collect_addrs st link.index = [] →
        get_if_addr st ifname = Except.ok none) ∧
      (∀ ip : Ipv4Addr, collect_addrs st link.index = [IpAddr.v4 ip] →
        get_if_addr st ifname = Except.ok (some ip)) ∧
      (1 < (collect_addrs st link.index).length →
        get_if_addr st ifname = Except.error NlError.ambiguousAddress)) := by
  constructor
  · intro h
    simp [get_if_addr, h]
  · intro link hlink
    refine ⟨?_, ?_, ?_⟩
    · intro h
      simp [get_if_addr, hlink, h]
    · intro ip h
      simp [get_if_addr, hlink, h]
    · intro hlen
      rcases hc : collect_addrs st link.index with _ | ⟨a, _ | ⟨b, t⟩⟩
      · rw [hc] at hlen
        simp at hlen
      · rw [hc] at hlen
        simp at hlen
      · simp [get_if_addr, hlink, hc]

/-- C7 witness: on a kernel state where link `"eth0"` has index 3 and two
IPv4 address records are attached to index 3, `get_if_addr` fails with
`AmbiguousAddress`; and with the link absent it fails with
`InterfaceNotFound`. -/
theorem get_if_addr_cases_witness :
    get_if_addr
        ⟨[⟨"eth0", 3⟩],
         [⟨⟨AddressFamily.inet, 3⟩,
            [AddressAttribute.address (IpAddr.v4 ⟨1, 1, 1, 1⟩)]⟩,
          ⟨⟨AddressFamily.inet, 3⟩,
            [AddressAttribute.address (IpAddr.v4 ⟨2, 2, 2, 2⟩)]⟩]⟩ "eth0"
      = Except.error NlError.ambiguousAddress ∧
    get_if_addr ⟨[], []⟩ "eth0"
      = Except.error NlError.interfaceNotFound :=
  ⟨((get_if_addr_cases
        ⟨[⟨"eth0", 3⟩],
         [⟨⟨AddressFamily.inet, 3⟩,
            [AddressAttribute.address (IpAddr.v4 ⟨1, 1, 1, 1⟩)]⟩,
          ⟨⟨AddressFamily.inet, 3⟩,
            [AddressAttribute.address (IpAddr.v4 ⟨2, 2, 2, 2⟩)]⟩]⟩
        "eth0").2 ⟨"eth0", 3⟩ (by decide)).2.2 (by decide),
   (get_if_addr_cases ⟨[], []⟩ "eth0").1 rfl⟩
